import Mathlib

/-!
# A verification of the xk6-browser automation primitives

This file gives a shallow embedding, in Lean 4, of the protocol-primitive
core of the xk6-browser repository: the argument marshaler
(`convertArgument` / `convertBaseJSHandleTypes` in `common/helpers.go`),
the generic event waiter (`waitForEvent` / `createWaitForEventHandler`),
the timeout wrapper (`callApiWithTimeout`), and the keyboard controller
(`common/keyboard.go`: `down`, `up`, `keyDefinitionFromKey`, `comboPress`,
`split`).  Theorems at the end of the file settle the specification's
claims about these functions.

Modelling conventions:
* Go `int64` values are modelled as `Int`; the keyboard modifier bitmask
  only ever holds non-negative values, and is modelled as `Nat` so that
  the bitwise operations reduce in the kernel.  The Go statement
  `m &= ^bit` (clear the bits of `bit` in `m`) is embedded as
  `m ^^^ (m &&& bit)`, which is extensionally the same operation on
  non-negative two's-complement values.
* Go `float64` is modelled by the inductive `GoFloat`, which separates
  the special values the code branches on (`NaN`, the two infinities,
  the two signed zeros) from ordinary finite values; the Go `==`
  comparison on floats is embedded as `ieeeEq`, which identifies the two
  zeros and makes `NaN` unequal to everything, following IEEE-754.
* Fallible Go functions return `Except GoErr`.
* Channel-based concurrency (`waitForEvent`, `callApiWithTimeout`) is
  modelled by making the scheduling decision an explicit argument: the
  list of events the emitter publishes before the timeout fires, or the
  first `select` case that becomes ready.
* The repository ships two revisions of `keyboard.go`; the later
  revision (the one with the `isKeyX` shift-substitution guard, which is
  the one the specification describes) is the one embedded here.
* The `keyboardlayout` package and the frame manager are not part of the
  visible sources (only their callers and tests are); the definitions
  that model them are marked `Modelled from the spec:`.
-/

/-- The sentinel errors of the `common` package (`ErrTimedOut`,
`ErrWrongExecutionContext`, `ErrJSHandleDisposed`), plus constructors for
the ad-hoc `fmt.Errorf` errors the keyboard code produces. -/
inductive GoErr where
  | ErrTimedOut
  | ErrWrongExecutionContext
  | ErrJSHandleDisposed
  | errorMsg (msg : String)
  | wrapped (context : String) (e : GoErr)
  deriving DecidableEq

/-- The payload of a plain (JSON-serializable) protocol value.  The Go
code stores `json.Marshal` output bytes; the model keeps the marshaled
value itself, abstracting the byte-level encoding. -/
inductive PlainVal where
  | jsonInt (n : Int)
  | jsonNum (q : ℚ)
  | raw (bytes : String)
  deriving DecidableEq

/-- The type `cdpruntime.CallArgument` restricted to its actual use in the code:
exactly one of the JSON `value`, the `unserializableValue` token, or the
remote `objectID` is populated. -/
inductive CallArgument where
  | value (v : PlainVal)
  | unserializableValue (token : String)
  | objectID (id : String)
  deriving DecidableEq

/-- A Go `float64`, split into the special values `convertArgument`
branches on and ordinary finite values (represented exactly by the
rational they denote; `finite q` with `q = 0` is a zero and compares
equal to both signed zeros). -/
inductive GoFloat where
  | nan
  | inf (neg : Bool)
  | zero (neg : Bool)
  | finite (q : ℚ)
  deriving DecidableEq

/-- The Go `==` comparison on `float64`: IEEE-754 equality.  `NaN`
compares unequal to everything (itself included) and `+0.0 == -0.0`. -/
def ieeeEq : GoFloat → GoFloat → Bool
  | .nan, _ => false
  | _, .nan => false
  | .inf a, .inf b => a == b
  | .inf _, _ => false
  | _, .inf _ => false
  | .zero _, .zero _ => true
  | .zero _, .finite q => q == 0
  | .finite q, .zero _ => q == 0
  | .finite p, .finite q => p == q

/-- Models `math.IsNaN`. -/
def goIsNaN : GoFloat → Bool
  | .nan => true
  | _ => false

/-- The numeric value a finite `GoFloat` denotes (what `json.Marshal`
serializes). -/
def goFloatVal : GoFloat → ℚ
  | .finite q => q
  | _ => 0

/-- The constant `math.MaxInt32`, the protocol's 32-bit signed maximum. -/
def goMaxInt32 : Int := 2147483647

/-- The `int64` branch of `convertArgument` (`helpers.go`): an integer
above `math.MaxInt32` becomes the unserializable big-integer token
`fmt.Sprintf("%dn", n)`; otherwise the JSON encoding of the integer. -/
def convertIntArgument (n : Int) : CallArgument :=
  if n > goMaxInt32 then
    .unserializableValue (toString n ++ "n")
  else
    .value (.jsonInt n)

/-- The `float64` branch of `convertArgument` (`helpers.go`).  The Go
code compares with `==`: `f == math.Float64frombits(1<<63)` (negative
zero), `f == math.Inf(0)`, `f == math.Inf(-1)`, then `math.IsNaN(f)`;
otherwise it JSON-marshals `f`. -/
def convertFloatArgument (f : GoFloat) : CallArgument :=
  if ieeeEq f (.zero true) then
    .unserializableValue "-0"
  else if ieeeEq f (.inf false) then
    .unserializableValue "Infinity"
  else if ieeeEq f (.inf true) then
    .unserializableValue "-Infinity"
  else if goIsNaN f then
    .unserializableValue "NaN"
  else
    .value (.jsonNum (goFloatVal f))

/-- The type `cdpruntime.RemoteObject` restricted to the fields
`convertBaseJSHandleTypes` reads.  In the Go code the
`UnserializableValue` and `ObjectID` fields are string types whose
`.String()` is compared against `""` ("not carried"). -/
structure RemoteObject where
  UnserializableValue : String := ""
  ObjectID : String := ""
  Value : PlainVal := .raw ""
  deriving DecidableEq

/-- The handle type `BaseJSHandle` restricted to the fields `convertBaseJSHandleTypes`
reads.  The execution context a handle was obtained in is compared by
pointer identity in Go; the model compares numeric context identities. -/
structure BaseJSHandle where
  execCtxID : Nat
  disposed : Bool
  remoteObject : RemoteObject
  deriving DecidableEq

/-- Function `convertBaseJSHandleTypes` (`helpers.go`): the handle-to-wire
conversion, with its checks in source order. -/
def convertBaseJSHandleTypes (execCtxID : Nat) (objHandle : BaseJSHandle) :
    Except GoErr CallArgument :=
  if objHandle.execCtxID ≠ execCtxID then
    .error .ErrWrongExecutionContext
  else if objHandle.disposed then
    .error .ErrJSHandleDisposed
  else if objHandle.remoteObject.UnserializableValue ≠ "" then
    .ok (.unserializableValue objHandle.remoteObject.UnserializableValue)
  else if objHandle.remoteObject.ObjectID = "" then
    .ok (.value objHandle.remoteObject.Value)
  else
    .ok (.objectID objHandle.remoteObject.ObjectID)

/-- A scripted (goja) argument, classified the way the reflection switch
in `convertArgument` classifies it: `int64`, `float64`, an element or
generic JS handle, or anything else (kept as its JSON encoding). -/
inductive GojaValue where
  | int (n : Int)
  | float (f : GoFloat)
  | elementHandle (h : BaseJSHandle)
  | jsHandle (h : BaseJSHandle)
  | other (v : PlainVal)

/-- Function `convertArgument` (`helpers.go`): dispatch on the argument's runtime
type.  (`json.Marshal` failures for plain Go values are outside the
model; the numeric branches never fail in Go.) -/
def convertArgument (execCtxID : Nat) : GojaValue → Except GoErr CallArgument
  | .int n => .ok (convertIntArgument n)
  | .float f => .ok (convertFloatArgument f)
  | .elementHandle h => convertBaseJSHandleTypes execCtxID h
  | .jsHandle h => convertBaseJSHandleTypes execCtxID h
  | .other v => .ok (.value v)

/-- Why a Go context's `Done` channel fired: parent cancellation
(`context.Canceled`) or its own deadline (`context.DeadlineExceeded`). -/
inductive CtxErr where
  | canceled
  | deadlineExceeded
  deriving DecidableEq

/-- The first `select` case of `callApiWithTimeout` that becomes ready:
the api context's `Done` channel, the result channel, or the error
channel. -/
inductive ApiFirst (α : Type) where
  | ctxDone (e : CtxErr)
  | resultRecv (v : α)
  | errRecv (e : GoErr)

/-- Function `callApiWithTimeout` (`helpers.go`), modelled on the first ready
`select` case.  In the `Done` case the code sets `err = ErrTimedOut`
only when `apiCtx.Err() == context.Canceled` — i.e. when the
surrounding context was cancelled; when the wrapper's own deadline
expired (`context.DeadlineExceeded`, only possible when `timeout > 0`)
both `result` and `err` keep their zero values. -/
def callApiWithTimeoutModel (α : Type) :
    ApiFirst α → Option α × Option GoErr
  | .ctxDone e => (none, if e = CtxErr.canceled then some .ErrTimedOut else none)
  | .resultRecv v => (some v, none)
  | .errRecv e => (none, some e)

/-- The type `Event` of the `common` package: a type tag and a payload. -/
structure GoEvent (α : Type) where
  typ : String
  data : α

/-- Function `stringSliceContains` (`helpers.go`). -/
def stringSliceContains (s : List String) (e : String) : Bool :=
  match s with
  | [] => false
  | a :: rest => if a = e then true else stringSliceContains rest e

/-- What the handler goroutine of `createWaitForEventHandler` has done
to the result channel `ch` after consuming a batch of events:
still waiting, sent a payload and closed `ch`, or closed `ch` without
sending (the code's behaviour when the predicate rejects the payload of
a type-matching event). -/
inductive HandlerOutcome (α : Type) where
  | pending
  | deliveredThenClosed (d : Option α)
  | closedOnly
  deriving DecidableEq

/-- The handler goroutine of `createWaitForEventHandler` (`helpers.go`),
run over the list of events the emitter publishes, in order.  For an
event whose type is in `events`: with no predicate it sends `nil`; with
a predicate it sends the payload only if the predicate holds — but in
every one of these cases it then executes `close(ch)`, cancels the
subscription context and returns. -/
def runWaitForEventHandler (events : List String)
    (predicateFn : Option (α → Bool)) : List (GoEvent α) → HandlerOutcome α
  | [] => .pending
  | ev :: rest =>
    if stringSliceContains events ev.typ then
      match predicateFn with
      | none => .deliveredThenClosed none
      | some p => if p ev.data then .deliveredThenClosed (some ev.data) else .closedOnly
    else
      runWaitForEventHandler events predicateFn rest

/-- Function `waitForEvent` (`helpers.go`) for an execution in which the caller's
context stays alive and `arrivals` is the list of events the emitter
publishes before `timeout` elapses.  A payload sent on `ch` (or `ch`
being closed, which makes a receive yield the zero value `nil`) wins the
`select` against the timer; if the handler is still waiting once the
timer fires, the call returns `(nil, ErrTimedOut)`. -/
def waitForEventModel (events : List String)
    (predicateFn : Option (α → Bool)) (arrivals : List (GoEvent α)) :
    Option α × Option GoErr :=
  match runWaitForEventHandler events predicateFn arrivals with
  | .deliveredThenClosed d => (d, none)
  | .closedOnly => (none, none)
  | .pending => (none, some .ErrTimedOut)

/-- The modifier bit constants of `keyboard.go` (`1 << iota`). -/
def ModifierKeyAlt : Nat := 1

/-- The Control modifier bit. -/
def ModifierKeyControl : Nat := 2

/-- The Meta modifier bit. -/
def ModifierKeyMeta : Nat := 4

/-- The Shift modifier bit. -/
def ModifierKeyShift : Nat := 8

/-- The Go statement `m &= ^bit`: clear in `m` every bit set in `bit`.
On the non-negative values the modifier mask takes, this equals
`m ^^^ (m &&& bit)` (bits of `m` inside `bit` are removed, the rest kept),
which is the form that reduces in the kernel. -/
def clearBits (m bit : Nat) : Nat := m ^^^ (m &&& bit)

/-- The type `keyboardlayout.KeyDefinition`: one key's unmodified and
shift-modified identities.  Zero values mean "absent", as in Go. -/
structure KeyDefinition where
  Key : String := ""
  ShiftKey : String := ""
  Code : String := ""
  KeyCode : Int := 0
  ShiftKeyCode : Int := 0
  Location : Int := 0
  Text : String := ""
  deriving DecidableEq

/-- The type `keyboardlayout.KeyboardLayout`: the valid-key set and the
key table (a Go map, modelled as an association list keyed by the
canonical key-input identity). -/
structure KeyboardLayout where
  ValidKeys : List String
  Keys : List (String × KeyDefinition)
  deriving DecidableEq

/-- Direct lookup in the layout's key table (`layout.Keys[key]`). -/
def lookupKeys (L : KeyboardLayout) (key : String) : Option KeyDefinition :=
  (L.Keys.find? (fun p => p.1 == key)).map (fun p => p.2)

/-- Modelled from the spec: `layout.KeyDefinition(key)` of the missing
`keyboardlayout` package — search the table for an entry whose
unmodified `Key` value equals the token (spec section 4.1.1 step 2). -/
def layoutKeyDefinition (L : KeyboardLayout) (key : String) : Option KeyDefinition :=
  (L.Keys.find? (fun p => p.2.Key == key)).map (fun p => p.2)

/-- Modelled from the spec: `layout.ShiftKeyDefinition(key)` of the
missing `keyboardlayout` package — search the table for an entry whose
`ShiftKey` value equals the token (spec section 4.1.1 step 3); the Go
caller uses the zero `KeyDefinition` when nothing matches. -/
def layoutShiftKeyDefinition (L : KeyboardLayout) (key : String) : KeyDefinition :=
  ((L.Keys.find? (fun p => p.2.ShiftKey == key)).map (fun p => p.2)).getD {}

/-- The source entry, effective shift mask and shift-layer flag that the
first half of `keyDefinitionFromKey` (`keyboard.go`) computes before
building the output definition. -/
structure Resolution where
  srcKeyDef : KeyDefinition
  shift : Nat
  foundInShift : Bool
  deriving DecidableEq

/-- The lookup half of `keyDefinitionFromKey`: direct table hit first,
then by unmodified key value, then by shift key value (the last forces
the shift mask on and marks `foundInShift`). -/
def resolveKey (L : KeyboardLayout) (modifiers : Nat) (key : String) : Resolution :=
  match lookupKeys L key with
  | some d => { srcKeyDef := d, shift := modifiers &&& ModifierKeyShift, foundInShift := false }
  | none =>
    match layoutKeyDefinition L key with
    | some d => { srcKeyDef := d, shift := modifiers &&& ModifierKeyShift, foundInShift := false }
    | none =>
      { srcKeyDef := layoutShiftKeyDefinition L key
        shift := modifiers ||| ModifierKeyShift
        foundInShift := true }

/-- Function `isKeyX` (`keyboard.go`): whether the token is one of the 26
alphabetic key-position codes. -/
def isKeyX (key : String) : Bool :=
  ["KeyA", "KeyB", "KeyC", "KeyD", "KeyE", "KeyF", "KeyG", "KeyH", "KeyI",
   "KeyJ", "KeyK", "KeyL", "KeyM", "KeyN", "KeyO", "KeyP", "KeyQ", "KeyR",
   "KeyS", "KeyT", "KeyU", "KeyV", "KeyW", "KeyX", "KeyY", "KeyZ"].contains key

/-- The guard `isKeyXOrOnShiftLayerAndShiftUsed` of `keyDefinitionFromKey`:
the shift-variant `Key`/`Text` is substituted exactly when this holds. -/
def shiftSubstituted (key : String) (r : Resolution) : Bool :=
  (isKeyX key || r.foundInShift) && (r.shift != 0) && (r.srcKeyDef.ShiftKey != "")

/-- Go statement `if srcKeyDef.Key != "" { keyDef.Key = srcKeyDef.Key }`. -/
def assignKey (src : KeyDefinition) (d : KeyDefinition) : KeyDefinition :=
  if src.Key ≠ "" then { d with Key := src.Key } else d

/-- Go statement `if len(srcKeyDef.Key) == 1 { keyDef.Text = srcKeyDef.Key }`. -/
def assignTextFromKey (src : KeyDefinition) (d : KeyDefinition) : KeyDefinition :=
  if src.Key.length = 1 then { d with Text := src.Key } else d

/-- Go statement `if shift != 0 && srcKeyDef.ShiftKeyCode != 0 { keyDef.KeyCode = srcKeyDef.ShiftKeyCode }`. -/
def assignShiftKeyCode (shift : Nat) (src : KeyDefinition) (d : KeyDefinition) : KeyDefinition :=
  if shift ≠ 0 ∧ src.ShiftKeyCode ≠ 0 then { d with KeyCode := src.ShiftKeyCode } else d

/-- Go statement `if srcKeyDef.KeyCode != 0 { keyDef.KeyCode = srcKeyDef.KeyCode }`. -/
def assignKeyCode (src : KeyDefinition) (d : KeyDefinition) : KeyDefinition :=
  if src.KeyCode ≠ 0 then { d with KeyCode := src.KeyCode } else d

/-- Go statement `if key != "" { keyDef.Code = string(key) }`. -/
def assignCode (key : String) (d : KeyDefinition) : KeyDefinition :=
  if key ≠ "" then { d with Code := key } else d

/-- Go statement `if srcKeyDef.Location != 0 { keyDef.Location = srcKeyDef.Location }`. -/
def assignLocation (src : KeyDefinition) (d : KeyDefinition) : KeyDefinition :=
  if src.Location ≠ 0 then { d with Location := src.Location } else d

/-- Go statement `if srcKeyDef.Text != "" { keyDef.Text = srcKeyDef.Text }`. -/
def assignText (src : KeyDefinition) (d : KeyDefinition) : KeyDefinition :=
  if src.Text ≠ "" then { d with Text := src.Text } else d

/-- The Go shift-substitution statement: when
`isKeyXOrOnShiftLayerAndShiftUsed` holds, both `Key` and `Text` become
the source entry's `ShiftKey`. -/
def assignShiftSubst (key : String) (r : Resolution) (d : KeyDefinition) : KeyDefinition :=
  if shiftSubstituted key r then
    { d with Key := r.srcKeyDef.ShiftKey, Text := r.srcKeyDef.ShiftKey }
  else d

/-- The Go suppression statement: if any modifier besides Shift is
pressed, no text should be sent. -/
def suppressText (modifiers : Nat) (d : KeyDefinition) : KeyDefinition :=
  if clearBits modifiers ModifierKeyShift ≠ 0 then { d with Text := "" } else d

/-- The field-layering half of `keyDefinitionFromKey` (`keyboard.go`,
later revision): the conditional assignments above, one per Go
statement, applied to the zero `KeyDefinition` in source order. -/
def buildKeyDef (modifiers : Nat) (key : String) (r : Resolution) : KeyDefinition :=
  suppressText modifiers
    (assignShiftSubst key r
      (assignText r.srcKeyDef
        (assignLocation r.srcKeyDef
          (assignCode key
            (assignKeyCode r.srcKeyDef
              (assignShiftKeyCode r.shift r.srcKeyDef
                (assignTextFromKey r.srcKeyDef
                  (assignKey r.srcKeyDef {}))))))))

/-- Function `keyDefinitionFromKey` (`keyboard.go`, later revision):
resolve the token, then layer the output definition. -/
def keyDefinitionFromKey (L : KeyboardLayout) (modifiers : Nat) (key : String) : KeyDefinition :=
  buildKeyDef modifiers key (resolveKey L modifiers key)

/-- The layering pipeline with the shift-substitution statement removed.
This is the specification side of the "only when" clause of the shift
substitution rule: whenever the substitution guard fails, the built
definition must coincide with this one, i.e. no shift-variant value is
used anywhere. -/
def buildKeyDefNoShift (modifiers : Nat) (key : String) (r : Resolution) : KeyDefinition :=
  suppressText modifiers
    (assignText r.srcKeyDef
      (assignLocation r.srcKeyDef
        (assignCode key
          (assignKeyCode r.srcKeyDef
            (assignShiftKeyCode r.shift r.srcKeyDef
              (assignTextFromKey r.srcKeyDef
                (assignKey r.srcKeyDef {})))))))

/-- Function `modifierBitFromKeyName` (`keyboard.go`). -/
def modifierBitFromKeyName : String → Nat
  | "Alt" => ModifierKeyAlt
  | "Control" => ModifierKeyControl
  | "Meta" => ModifierKeyMeta
  | "Shift" => ModifierKeyShift
  | _ => 0

/-- A sanity condition on a layout, satisfied by the real "us" layout:
no entry's shift-variant key name is a modifier name, and the modifier
entries (Shift, Control, Alt, Meta) define no shift variant.  Under this
condition the modifier bit derived from a resolved definition is the bit
of the source entry's unmodified key name. -/
def layoutSane (L : KeyboardLayout) : Prop :=
  ∀ d ∈ L.Keys.map Prod.snd,
    modifierBitFromKeyName d.ShiftKey = 0 ∧
    (modifierBitFromKeyName d.Key = 0 ∨ d.ShiftKey = "")

/-- The CDP key event types used by `input.DispatchKeyEvent`. -/
inductive KeyEventType where
  | keyDown
  | rawKeyDown
  | keyUp
  deriving DecidableEq

/-- The fields of a dispatched CDP key event (`input.DispatchKeyEvent`
with the `With...` setters used by `down`/`up`; fields a call does not
set keep their zero values). -/
structure KeyEvent where
  type : KeyEventType
  modifiers : Nat
  key : String
  windowsVirtualKeyCode : Int
  code : String
  location : Int
  isKeypad : Bool := false
  text : String := ""
  unmodifiedText : String := ""
  autoRepeat : Bool := false
  deriving DecidableEq

/-- A protocol command issued by the keyboard controller.  Each key
command also records the requested key token (the argument of the
`down`/`up` call that issued it), which identifies the command when
stating ordering properties. -/
inductive KbdCmd where
  | keyDownCmd (requestedKey : String) (ev : KeyEvent)
  | keyUpCmd (requestedKey : String) (ev : KeyEvent)
  | insertTextCmd (text : String)
  deriving DecidableEq

/-- The identity of a command: its phase and requested key. -/
inductive CmdTag where
  | downTag (key : String)
  | upTag (key : String)
  | insertTag (text : String)
  deriving DecidableEq

/-- Project a command to its identity. -/
def KbdCmd.tag : KbdCmd → CmdTag
  | .keyDownCmd k _ => .downTag k
  | .keyUpCmd k _ => .upTag k
  | .insertTextCmd t => .insertTag t

/-- The mutable state of a `Keyboard`: the modifier bitmask and the set
of currently pressed key codes (a Go `map[int64]bool`, modelled as a
duplicate-free list). -/
structure KbState where
  modifiers : Nat
  pressedKeys : List Int
  deriving DecidableEq

/-- The fresh keyboard state of `NewKeyboard`. -/
def newKeyboardState : KbState := { modifiers := 0, pressedKeys := [] }

/-- Function `down` (`keyboard.go`, later revision): validity check,
key-definition resolution, modifier-bit set, auto-repeat bookkeeping and
the dispatched `keyDown` (or `rawKeyDown` when no text) event. -/
def downK (L : KeyboardLayout) (st : KbState) (key : String) :
    Except GoErr (KbState × KbdCmd) :=
  if ¬ L.ValidKeys.contains key then
    .error (.errorMsg (key ++ " is not a valid key for layout us"))
  else
    let keyDef := keyDefinitionFromKey L st.modifiers key
    let modifiers := st.modifiers ||| modifierBitFromKeyName keyDef.Key
    let text := keyDef.Text
    let autoRepeat := st.pressedKeys.contains keyDef.KeyCode
    let pressedKeys :=
      if st.pressedKeys.contains keyDef.KeyCode then st.pressedKeys
      else keyDef.KeyCode :: st.pressedKeys
    let keyType := if text = "" then KeyEventType.rawKeyDown else KeyEventType.keyDown
    .ok ({ modifiers := modifiers, pressedKeys := pressedKeys },
      .keyDownCmd key {
        type := keyType
        modifiers := modifiers
        key := keyDef.Key
        windowsVirtualKeyCode := keyDef.KeyCode
        code := keyDef.Code
        location := keyDef.Location
        isKeypad := keyDef.Location == 3
        text := text
        unmodifiedText := text
        autoRepeat := autoRepeat })

/-- Function `up` (`keyboard.go`, later revision): validity check,
key-definition resolution, modifier-bit clear, pressed-key removal and
the dispatched `keyUp` event. -/
def upK (L : KeyboardLayout) (st : KbState) (key : String) :
    Except GoErr (KbState × KbdCmd) :=
  if ¬ L.ValidKeys.contains key then
    .error (.errorMsg (key ++ " is not a valid key for layout us"))
  else
    let keyDef := keyDefinitionFromKey L st.modifiers key
    let modifiers := clearBits st.modifiers (modifierBitFromKeyName keyDef.Key)
    let pressedKeys := st.pressedKeys.erase keyDef.KeyCode
    .ok ({ modifiers := modifiers, pressedKeys := pressedKeys },
      .keyUpCmd key {
        type := KeyEventType.keyUp
        modifiers := modifiers
        key := keyDef.Key
        windowsVirtualKeyCode := keyDef.KeyCode
        code := keyDef.Code
        location := keyDef.Location })

/-- Function `split` (`keyboard.go`), inner loop: a `+` is a separator
only when the accumulating builder already holds at least one character,
otherwise it is appended as a literal; the final accumulator is always
appended. -/
def splitGo (acc : String) : List Char → List String
  | [] => [acc]
  | r :: rest =>
    if r = '+' ∧ 0 < acc.length then acc :: splitGo "" rest
    else splitGo (acc.push r) rest

/-- Function `split` (`keyboard.go`): split a combo string on `+`. -/
def split (keys : String) : List String :=
  splitGo "" keys.toList

/-- The first loop of `comboPress`: issue `down` for every segment in
order, propagating the first failure (wrapped as in the Go code). -/
def downAll (L : KeyboardLayout) (st : KbState) :
    List String → Except GoErr (KbState × List KbdCmd)
  | [] => .ok (st, [])
  | k :: rest =>
    match downK L st k with
    | .error e => .error (.wrapped "cannot do key down" e)
    | .ok (st1, c) =>
      match downAll L st1 rest with
      | .error e => .error e
      | .ok (st2, cs) => .ok (st2, c :: cs)

/-- The second loop of `comboPress`: issue `up` for every segment of the
given (already reversed) list, propagating the first failure. -/
def upAll (L : KeyboardLayout) (st : KbState) :
    List String → Except GoErr (KbState × List KbdCmd)
  | [] => .ok (st, [])
  | k :: rest =>
    match upK L st k with
    | .error e => .error (.wrapped "cannot do key up" e)
    | .ok (st1, c) =>
      match upAll L st1 rest with
      | .error e => .error e
      | .ok (st2, cs) => .ok (st2, c :: cs)

/-- Function `comboPress` (`keyboard.go`) with a zero delay: split the
combo, press every segment left to right, then release in reverse
order (`kk[len(kk)-i-1]`), collecting the dispatched commands. -/
def comboPressK (L : KeyboardLayout) (st : KbState) (keys : String) :
    Except GoErr (KbState × List KbdCmd) :=
  let kk := split keys
  match downAll L st kk with
  | .error e => .error e
  | .ok (st1, downs) =>
    match upAll L st1 kk.reverse with
    | .error e => .error e
    | .ok (st2, ups) => .ok (st2, downs ++ ups)

/-- Modelled from the spec: a fragment of the missing `keyboardlayout`
package's "us" layout, with the entries the specification's examples
exercise (letter keys with shift variants, the digit `2` whose shift
slot is `@`, the bare modifier keys, and `Enter` with an explicit
`Text`). -/
def usLayoutFragment : KeyboardLayout := {
  ValidKeys := ["0", "2", "@", "a", "b", "A", "B", "KeyA", "KeyB", "Digit2",
                "Shift", "Control", "Alt", "Meta", "Enter"]
  Keys := [
    ("Digit2", { Key := "2", ShiftKey := "@", KeyCode := 50 }),
    ("KeyA", { Key := "a", ShiftKey := "A", KeyCode := 65 }),
    ("KeyB", { Key := "b", ShiftKey := "B", KeyCode := 66 }),
    ("ShiftLeft", { Key := "Shift", KeyCode := 16, Location := 1 }),
    ("ControlLeft", { Key := "Control", KeyCode := 17, Location := 1 }),
    ("AltLeft", { Key := "Alt", KeyCode := 18, Location := 1 }),
    ("MetaLeft", { Key := "Meta", KeyCode := 91, Location := 1 }),
    ("Enter", { Key := "Enter", KeyCode := 13, Text := "\r" })] }

/-- The type `DocumentInfo`: a frame's in-flight navigation target. -/
structure DocumentInfo where
  documentID : String
  deriving DecidableEq

/-- The type `NavigationEvent` as the abort path populates it: the
(about-to-be-cleared) pending document and the error message. -/
structure NavigationEvent where
  newDocument : Option DocumentInfo
  err : String
  deriving DecidableEq

/-- A frame restricted to the state the abort path touches. -/
structure FrameModel where
  pendingDocument : Option DocumentInfo
  deriving DecidableEq

/-- Modelled from the spec: `FrameManager.frameAbortedNavigation` of the
missing frame-manager source (only its test is visible) — on abort,
emit a `NavigationEvent` whose `newDocument` is the frame's current
`pendingDocument` captured before clearing, carrying the error, and
only then clear the frame's `pendingDocument` to nil (spec section 4.4).
The returned pair is (frame after the abort, emitted event). -/
def frameAbortedNavigation (f : FrameModel) (errMsg : String) (_documentID : String) :
    FrameModel × Option NavigationEvent :=
  match f.pendingDocument with
  | none => (f, none)
  | some d =>
    ({ f with pendingDocument := none }, some { newDocument := some d, err := errMsg })

/-! ## Helper lemmas -/

theorem assignShiftSubst_of_false (key : String) (r : Resolution) (d : KeyDefinition)
    (h : shiftSubstituted key r = false) : assignShiftSubst key r d = d := by
  simp [assignShiftSubst, h]

@[simp] theorem assignKey_Text (src d : KeyDefinition) : (assignKey src d).Text = d.Text := by
  unfold assignKey; split <;> rfl

@[simp] theorem assignTextFromKey_Key (src d : KeyDefinition) :
    (assignTextFromKey src d).Key = d.Key := by
  unfold assignTextFromKey; split <;> rfl

@[simp] theorem assignShiftKeyCode_Key (s : Nat) (src d : KeyDefinition) :
    (assignShiftKeyCode s src d).Key = d.Key := by
  unfold assignShiftKeyCode; split <;> rfl

@[simp] theorem assignShiftKeyCode_Text (s : Nat) (src d : KeyDefinition) :
    (assignShiftKeyCode s src d).Text = d.Text := by
  unfold assignShiftKeyCode; split <;> rfl

@[simp] theorem assignKeyCode_Key (src d : KeyDefinition) : (assignKeyCode src d).Key = d.Key := by
  unfold assignKeyCode; split <;> rfl

@[simp] theorem assignKeyCode_Text (src d : KeyDefinition) : (assignKeyCode src d).Text = d.Text := by
  unfold assignKeyCode; split <;> rfl

@[simp] theorem assignCode_Key (key : String) (d : KeyDefinition) : (assignCode key d).Key = d.Key := by
  unfold assignCode; split <;> rfl

@[simp] theorem assignCode_Text (key : String) (d : KeyDefinition) : (assignCode key d).Text = d.Text := by
  unfold assignCode; split <;> rfl

@[simp] theorem assignLocation_Key (src d : KeyDefinition) : (assignLocation src d).Key = d.Key := by
  unfold assignLocation; split <;> rfl

@[simp] theorem assignLocation_Text (src d : KeyDefinition) : (assignLocation src d).Text = d.Text := by
  unfold assignLocation; split <;> rfl

@[simp] theorem assignText_Key (src d : KeyDefinition) : (assignText src d).Key = d.Key := by
  unfold assignText; split <;> rfl

@[simp] theorem suppressText_Key (m : Nat) (d : KeyDefinition) : (suppressText m d).Key = d.Key := by
  unfold suppressText; split <;> rfl

theorem buildKeyDef_no_subst (modifiers : Nat) (key : String) (r : Resolution)
    (h : shiftSubstituted key r = false) :
    buildKeyDef modifiers key r = buildKeyDefNoShift modifiers key r := by
  unfold buildKeyDef buildKeyDefNoShift
  rw [assignShiftSubst_of_false _ _ _ h]

theorem buildKeyDef_Key_subst (modifiers : Nat) (key : String) (r : Resolution)
    (h : shiftSubstituted key r = true) :
    (buildKeyDef modifiers key r).Key = r.srcKeyDef.ShiftKey := by
  unfold buildKeyDef
  simp [assignShiftSubst, h]

theorem buildKeyDef_Text_subst (modifiers : Nat) (key : String) (r : Resolution)
    (h : shiftSubstituted key r = true) (h2 : clearBits modifiers ModifierKeyShift = 0) :
    (buildKeyDef modifiers key r).Text = r.srcKeyDef.ShiftKey := by
  unfold buildKeyDef
  simp [suppressText, assignShiftSubst, h, h2]

theorem buildKeyDef_Key_no_subst (modifiers : Nat) (key : String) (r : Resolution)
    (h : shiftSubstituted key r = false) :
    (buildKeyDef modifiers key r).Key =
      if r.srcKeyDef.Key ≠ "" then r.srcKeyDef.Key else "" := by
  unfold buildKeyDef
  rw [assignShiftSubst_of_false _ _ _ h]
  simp [assignKey]
  split <;> rfl

theorem resolveKey_src_mem (L : KeyboardLayout) (m : Nat) (key : String) :
    (resolveKey L m key).srcKeyDef ∈ L.Keys.map Prod.snd ∨
    (resolveKey L m key).srcKeyDef = {} := by
  cases h1 : lookupKeys L key with
  | some d =>
    left
    simp only [resolveKey, h1]
    simp only [lookupKeys, Option.map_eq_some'] at h1
    obtain ⟨p, hp, hd⟩ := h1
    exact hd ▸ List.mem_map_of_mem Prod.snd (List.mem_of_find?_eq_some hp)
  | none =>
    cases h2 : layoutKeyDefinition L key with
    | some d =>
      left
      simp only [resolveKey, h1, h2]
      simp only [layoutKeyDefinition, Option.map_eq_some'] at h2
      obtain ⟨p, hp, hd⟩ := h2
      exact hd ▸ List.mem_map_of_mem Prod.snd (List.mem_of_find?_eq_some hp)
    | none =>
      simp only [resolveKey, h1, h2, layoutShiftKeyDefinition]
      cases h3 : L.Keys.find? (fun p => p.2.ShiftKey == key) with
      | some p =>
        left
        exact List.mem_map_of_mem Prod.snd (List.mem_of_find?_eq_some h3)
      | none => right; rfl

theorem shiftSubstituted_ShiftKey_ne (key : String) (r : Resolution)
    (h : shiftSubstituted key r = true) : r.srcKeyDef.ShiftKey ≠ "" := by
  simp only [shiftSubstituted, Bool.and_eq_true, bne_iff_ne] at h
  exact h.2

theorem modifierBit_keyDef (L : KeyboardLayout) (m : Nat) (key : String)
    (hL : layoutSane L) :
    modifierBitFromKeyName (keyDefinitionFromKey L m key).Key =
      modifierBitFromKeyName (resolveKey L m key).srcKeyDef.Key := by
  have hmem := resolveKey_src_mem L m key
  by_cases hs : shiftSubstituted key (resolveKey L m key) = true
  · rw [keyDefinitionFromKey, buildKeyDef_Key_subst _ _ _ hs]
    rcases hmem with hmem | hdef
    · obtain ⟨h1, h2⟩ := hL _ hmem
      rw [h1]
      rcases h2 with h2 | h2
      · rw [h2]
      · exact absurd h2 (shiftSubstituted_ShiftKey_ne _ _ hs)
    · exact absurd (shiftSubstituted_ShiftKey_ne _ _ hs) (by simp [hdef])
  · rw [keyDefinitionFromKey,
      buildKeyDef_Key_no_subst _ _ _ (Bool.not_eq_true _ ▸ hs)]
    split
    · rfl
    · next hk =>
      rw [not_not.mp (fun hc => hk hc)]

theorem lor_land_self (m b : Nat) : (m ||| b) &&& b = b := by
  apply Nat.eq_of_testBit_eq
  intro i
  simp only [Nat.testBit_land, Nat.testBit_lor]
  cases h : b.testBit i <;> simp

theorem clearBits_land (m b : Nat) : clearBits m b &&& b = 0 := by
  apply Nat.eq_of_testBit_eq
  intro i
  simp only [clearBits, Nat.testBit_land, Nat.testBit_xor, Nat.testBit_zero]
  cases h : b.testBit i <;> cases h2 : m.testBit i <;> simp

theorem clearBits_zero (m : Nat) : clearBits m 0 = m := by
  simp [clearBits]

theorem downK_ok (L : KeyboardLayout) (st : KbState) (key : String)
    (st2 : KbState) (c : KbdCmd) (h : downK L st key = .ok (st2, c)) :
    st2.modifiers = st.modifiers |||
      modifierBitFromKeyName (keyDefinitionFromKey L st.modifiers key).Key
    ∧ c.tag = CmdTag.downTag key := by
  unfold downK at h
  split at h
  · exact absurd h (by simp)
  · simp only [Except.ok.injEq, Prod.mk.injEq] at h
    obtain ⟨h1, h2⟩ := h
    constructor
    · rw [← h1]
    · rw [← h2]
      rfl

theorem upK_ok (L : KeyboardLayout) (st : KbState) (key : String)
    (st2 : KbState) (c : KbdCmd) (h : upK L st key = .ok (st2, c)) :
    st2.modifiers = clearBits st.modifiers
      (modifierBitFromKeyName (keyDefinitionFromKey L st.modifiers key).Key)
    ∧ c.tag = CmdTag.upTag key := by
  unfold upK at h
  split at h
  · exact absurd h (by simp)
  · simp only [Except.ok.injEq, Prod.mk.injEq] at h
    obtain ⟨h1, h2⟩ := h
    constructor
    · rw [← h1]
    · rw [← h2]
      rfl

theorem downAll_tags (L : KeyboardLayout) :
    ∀ (ks : List String) (st st2 : KbState) (cs : List KbdCmd),
    downAll L st ks = .ok (st2, cs) → cs.map KbdCmd.tag = ks.map CmdTag.downTag := by
  intro ks
  induction ks with
  | nil =>
    intro st st2 cs h
    simp only [downAll, Except.ok.injEq, Prod.mk.injEq] at h
    rw [← h.2]
    rfl
  | cons k rest ih =>
    intro st st2 cs h
    unfold downAll at h
    split at h
    · exact absurd h (by simp)
    · rename_i st1 c hd
      split at h
      · exact absurd h (by simp)
      · rename_i st3 cs1 ha
        simp only [Except.ok.injEq, Prod.mk.injEq] at h
        rw [← h.2]
        simp only [List.map_cons]
        rw [(downK_ok L st k st1 c hd).2, ih st1 st3 cs1 ha]

theorem upAll_tags (L : KeyboardLayout) :
    ∀ (ks : List String) (st st2 : KbState) (cs : List KbdCmd),
    upAll L st ks = .ok (st2, cs) → cs.map KbdCmd.tag = ks.map CmdTag.upTag := by
  intro ks
  induction ks with
  | nil =>
    intro st st2 cs h
    simp only [upAll, Except.ok.injEq, Prod.mk.injEq] at h
    rw [← h.2]
    rfl
  | cons k rest ih =>
    intro st st2 cs h
    unfold upAll at h
    split at h
    · exact absurd h (by simp)
    · rename_i st1 c hd
      split at h
      · exact absurd h (by simp)
      · rename_i st3 cs1 ha
        simp only [Except.ok.injEq, Prod.mk.injEq] at h
        rw [← h.2]
        simp only [List.map_cons]
        rw [(upK_ok L st k st1 c hd).2, ih st1 st3 cs1 ha]

/-! ## Claim theorems -/

/-- C1: the claim says that a type-matching event whose payload fails
the predicate does not satisfy the wait and the wait continues, so that
a later qualifying event is still delivered (or the call times out).
The embedded code does the opposite: evaluated on a trace where a
rejected event (payload 0) precedes a qualifying one (payload 1), the
wait ends at the rejected event — the handler closes the channel and
unsubscribes, and the call returns a nil payload with a nil error,
neither delivering the qualifying payload nor timing out. -/
theorem c1_predicate_false_terminates_wait :
    waitForEventModel ["navigation"] (some (fun d => d == (1 : Int)))
        [⟨"navigation", 0⟩, ⟨"navigation", 1⟩] = (none, none)
    ∧ waitForEventModel ["navigation"] (some (fun d => d == (1 : Int)))
        [⟨"navigation", 0⟩, ⟨"navigation", 1⟩] ≠ (some 1, none)
    ∧ waitForEventModel ["navigation"] (some (fun d => d == (1 : Int)))
        [⟨"navigation", 0⟩, ⟨"navigation", 1⟩] ≠ (none, some GoErr.ErrTimedOut) := by
  decide

/-- C2: the shift-variant `Key`/`Text` is substituted into the resulting
`KeyDefinition` only when the guard `shiftSubstituted` holds — i.e. when
(the token was resolved via the shift layer, or it is one of the 26
`KeyA`..`KeyZ` codes) and the effective shift mask is non-zero and the
entry defines a non-empty `ShiftKey`.  When the guard fails the result
equals the pipeline with the substitution statement removed; when it
holds, `Key` (and, absent other modifiers, `Text`) is the entry's
`ShiftKey`.  Consequently resolving `"2"` with Shift held yields `Text`
`"2"`, not `"@"`, while resolving `"KeyA"` with Shift held yields the
shift variant `"A"` for both `Key` and `Text`. -/
theorem c2_shift_substitution_rule :
    (∀ (L : KeyboardLayout) (modifiers : Nat) (key : String),
      shiftSubstituted key (resolveKey L modifiers key) = false →
      keyDefinitionFromKey L modifiers key =
        buildKeyDefNoShift modifiers key (resolveKey L modifiers key))
    ∧ (∀ (L : KeyboardLayout) (modifiers : Nat) (key : String),
      shiftSubstituted key (resolveKey L modifiers key) = true →
      (keyDefinitionFromKey L modifiers key).Key =
        (resolveKey L modifiers key).srcKeyDef.ShiftKey
      ∧ (clearBits modifiers ModifierKeyShift = 0 →
        (keyDefinitionFromKey L modifiers key).Text =
          (resolveKey L modifiers key).srcKeyDef.ShiftKey))
    ∧ (keyDefinitionFromKey usLayoutFragment ModifierKeyShift "2").Text = "2"
    ∧ (keyDefinitionFromKey usLayoutFragment ModifierKeyShift "2").Text ≠ "@"
    ∧ (keyDefinitionFromKey usLayoutFragment ModifierKeyShift "2").Key = "2"
    ∧ (keyDefinitionFromKey usLayoutFragment ModifierKeyShift "KeyA").Key = "A"
    ∧ (keyDefinitionFromKey usLayoutFragment ModifierKeyShift "KeyA").Text = "A" := by
  refine ⟨?_, ?_, by decide, by decide, by decide, by decide, by decide⟩
  · intro L m key h
    exact buildKeyDef_no_subst m key (resolveKey L m key) h
  · intro L m key h
    exact ⟨buildKeyDef_Key_subst m key _ h,
      fun h2 => buildKeyDef_Text_subst m key _ h h2⟩

/-- C2 witness: the rule instantiated on the "us" fragment — no
substitution for `"2"` without shift, substitution for `"KeyA"` with
Shift held. -/
theorem c2_shift_substitution_rule_witness :
    (shiftSubstituted "2" (resolveKey usLayoutFragment 0 "2") = false
      ∧ keyDefinitionFromKey usLayoutFragment 0 "2" =
          buildKeyDefNoShift 0 "2" (resolveKey usLayoutFragment 0 "2"))
    ∧ (shiftSubstituted "KeyA" (resolveKey usLayoutFragment ModifierKeyShift "KeyA") = true
      ∧ (keyDefinitionFromKey usLayoutFragment ModifierKeyShift "KeyA").Key =
          (resolveKey usLayoutFragment ModifierKeyShift "KeyA").srcKeyDef.ShiftKey
      ∧ (clearBits ModifierKeyShift ModifierKeyShift = 0
        ∧ (keyDefinitionFromKey usLayoutFragment ModifierKeyShift "KeyA").Text =
            (resolveKey usLayoutFragment ModifierKeyShift "KeyA").srcKeyDef.ShiftKey)) :=
  ⟨⟨by decide, c2_shift_substitution_rule.1 usLayoutFragment 0 "2" (by decide)⟩,
   ⟨by decide,
    (c2_shift_substitution_rule.2.1 usLayoutFragment ModifierKeyShift "KeyA" (by decide)).1,
    ⟨by decide,
     (c2_shift_substitution_rule.2.1 usLayoutFragment ModifierKeyShift "KeyA"
       (by decide)).2 (by decide)⟩⟩⟩

/-- C3: in `split`, a `+` is a separator only when the accumulator
already holds at least one character, otherwise a literal appended to
the accumulator; the final (possibly empty) accumulator is always
appended; and the four pinned examples hold. -/
theorem c3_split_separator_rule :
    (∀ acc : String, splitGo acc [] = [acc])
    ∧ (∀ (acc : String) (rest : List Char), 0 < acc.length →
        splitGo acc ('+' :: rest) = acc :: splitGo "" rest)
    ∧ (∀ rest : List Char, splitGo "" ('+' :: rest) = splitGo "+" rest)
    ∧ (∀ (acc : String) (c : Char) (rest : List Char), c ≠ '+' →
        splitGo acc (c :: rest) = splitGo (acc.push c) rest)
    ∧ split "+" = ["+"]
    ∧ split "++" = ["+", ""]
    ∧ split "+++" = ["+", "+"]
    ∧ split "a+b" = ["a", "b"] := by
  refine ⟨fun acc => rfl, ?_, ?_, ?_, by decide, by decide, by decide, by decide⟩
  · intro acc rest h
    simp [splitGo, h]
  · intro rest
    simp [splitGo]
    rfl
  · intro acc c rest h
    simp [splitGo, h]

/-- C3 witness: the separator rule at a non-empty accumulator and the
literal rule at a non-plus character. -/
theorem c3_split_separator_rule_witness :
    (0 < ("a" : String).length
      ∧ splitGo "a" ('+' :: ['b']) = "a" :: splitGo "" ['b'])
    ∧ (('b' : Char) ≠ '+'
      ∧ splitGo "" ('b' :: []) = splitGo ("".push 'b') []) :=
  ⟨⟨by decide, c3_split_separator_rule.2.1 "a" ['b'] (by decide)⟩,
   ⟨by decide, c3_split_separator_rule.2.2.2.1 "" 'b' [] (by decide)⟩⟩

/-- C4 counterexample: the claim maps only negative zero to `"-0"` and
says every other number becomes a `PlainValue` of its JSON encoding,
but the code's comparison `f == math.Float64frombits(1<<63)` is IEEE
equality, which `+0.0` also satisfies: `convertArgument(+0.0)` is the
unserializable token `"-0"`, not a `PlainValue` of the JSON number 0. -/
theorem c4_positive_zero_counterexample :
    convertFloatArgument (GoFloat.zero false) = CallArgument.unserializableValue "-0"
    ∧ convertFloatArgument (GoFloat.zero false) ≠ CallArgument.value (PlainVal.jsonNum 0)
    ∧ convertArgument 0 (GojaValue.float (GoFloat.zero false)) =
        Except.ok (CallArgument.unserializableValue "-0") :=
  ⟨by decide, by decide, rfl⟩

/-- C4 (amended): `convertArgument` maps `NaN` to `"NaN"`, both signed
zeros to `"-0"` (the negative-zero comparison is IEEE equality, so
`+0.0` matches it too), the infinities to `"Infinity"`/`"-Infinity"`,
and every `int64` above the 32-bit signed maximum to its decimal digits
followed by `n` (e.g. `2147483648` to `"2147483648n"`); every other
number — every `int64` at most the maximum and every non-zero finite
float — becomes a `PlainValue` holding its JSON encoding. -/
theorem c4_convertArgument_numeric_mapping :
    convertFloatArgument GoFloat.nan = CallArgument.unserializableValue "NaN"
    ∧ convertFloatArgument (GoFloat.zero true) = CallArgument.unserializableValue "-0"
    ∧ convertFloatArgument (GoFloat.zero false) = CallArgument.unserializableValue "-0"
    ∧ convertFloatArgument (GoFloat.inf false) = CallArgument.unserializableValue "Infinity"
    ∧ convertFloatArgument (GoFloat.inf true) = CallArgument.unserializableValue "-Infinity"
    ∧ (∀ n : Int, n > goMaxInt32 →
        convertIntArgument n = CallArgument.unserializableValue (toString n ++ "n"))
    ∧ convertIntArgument 2147483648 = CallArgument.unserializableValue "2147483648n"
    ∧ (∀ n : Int, n ≤ goMaxInt32 →
        convertIntArgument n = CallArgument.value (PlainVal.jsonInt n))
    ∧ (∀ q : ℚ, q ≠ 0 →
        convertFloatArgument (GoFloat.finite q) = CallArgument.value (PlainVal.jsonNum q)) := by
  refine ⟨by decide, by decide, by decide, by decide, by decide, ?_, by decide, ?_, ?_⟩
  · intro n h
    simp [convertIntArgument, h]
  · intro n h
    simp [convertIntArgument, not_lt.mpr h]
  · intro q h
    simp [convertFloatArgument, ieeeEq, goIsNaN, goFloatVal, h]

/-- C4 witness: the three quantified branches of the amended mapping at
concrete inputs. -/
theorem c4_convertArgument_numeric_mapping_witness :
    ((2147483648 : Int) > goMaxInt32
      ∧ convertIntArgument 2147483648 =
          CallArgument.unserializableValue (toString (2147483648 : Int) ++ "n"))
    ∧ ((7 : Int) ≤ goMaxInt32
      ∧ convertIntArgument 7 = CallArgument.value (PlainVal.jsonInt 7))
    ∧ ((3 : ℚ) ≠ 0
      ∧ convertFloatArgument (GoFloat.finite 3) = CallArgument.value (PlainVal.jsonNum 3)) :=
  ⟨⟨by decide, c4_convertArgument_numeric_mapping.2.2.2.2.2.1 2147483648 (by decide)⟩,
   ⟨by decide, c4_convertArgument_numeric_mapping.2.2.2.2.2.2.2.1 7 (by decide)⟩,
   ⟨by decide, c4_convertArgument_numeric_mapping.2.2.2.2.2.2.2.2 3 (by decide)⟩⟩

/-- C5: for any layout satisfying the sanity condition of the real "us"
layout and any key it accepts, a successful `down` sets in the modifier
mask exactly the bit of the resolved entry's unmodified key name (so the
bit is set afterwards), a successful `up` clears that bit (so the bit is
cleared afterwards), and when that name is not one of
Alt/Control/Meta/Shift (bit 0) both operations leave the mask
unchanged. -/
theorem c5_modifier_state_bits :
    ∀ (L : KeyboardLayout) (st : KbState) (key : String) (st2 : KbState) (c : KbdCmd),
    layoutSane L →
    (downK L st key = .ok (st2, c) →
      st2.modifiers = st.modifiers |||
        modifierBitFromKeyName (resolveKey L st.modifiers key).srcKeyDef.Key
      ∧ st2.modifiers &&& modifierBitFromKeyName (resolveKey L st.modifiers key).srcKeyDef.Key
          = modifierBitFromKeyName (resolveKey L st.modifiers key).srcKeyDef.Key
      ∧ (modifierBitFromKeyName (resolveKey L st.modifiers key).srcKeyDef.Key = 0 →
          st2.modifiers = st.modifiers))
    ∧ (upK L st key = .ok (st2, c) →
      st2.modifiers = clearBits st.modifiers
        (modifierBitFromKeyName (resolveKey L st.modifiers key).srcKeyDef.Key)
      ∧ st2.modifiers &&& modifierBitFromKeyName (resolveKey L st.modifiers key).srcKeyDef.Key = 0
      ∧ (modifierBitFromKeyName (resolveKey L st.modifiers key).srcKeyDef.Key = 0 →
          st2.modifiers = st.modifiers)) := by
  intro L st key st2 c hL
  constructor
  · intro h
    have hb := modifierBit_keyDef L st.modifiers key hL
    have h1 := (downK_ok L st key st2 c h).1
    rw [hb] at h1
    refine ⟨h1, ?_, ?_⟩
    · rw [h1, lor_land_self]
    · intro h0
      rw [h1, h0]
      simp
  · intro h
    have hb := modifierBit_keyDef L st.modifiers key hL
    have h1 := (upK_ok L st key st2 c h).1
    rw [hb] at h1
    refine ⟨h1, ?_, ?_⟩
    · rw [h1, clearBits_land]
    · intro h0
      rw [h1, h0, clearBits_zero]

/-- C5 witness: pressing `"Shift"` from the fresh state on the "us"
fragment sets the Shift bit. -/
theorem c5_modifier_state_bits_witness :
    layoutSane usLayoutFragment
    ∧ downK usLayoutFragment newKeyboardState "Shift" =
        .ok ({ modifiers := 8, pressedKeys := [16] },
          KbdCmd.keyDownCmd "Shift"
            { type := KeyEventType.rawKeyDown, modifiers := 8, key := "Shift",
              windowsVirtualKeyCode := 16, code := "Shift", location := 1 })
    ∧ ({ modifiers := 8, pressedKeys := [16] } : KbState).modifiers =
        newKeyboardState.modifiers |||
          modifierBitFromKeyName
            (resolveKey usLayoutFragment newKeyboardState.modifiers "Shift").srcKeyDef.Key :=
  ⟨by unfold layoutSane; decide, rfl,
   ((c5_modifier_state_bits usLayoutFragment newKeyboardState "Shift"
      { modifiers := 8, pressedKeys := [16] }
      (KbdCmd.keyDownCmd "Shift"
        { type := KeyEventType.rawKeyDown, modifiers := 8, key := "Shift",
          windowsVirtualKeyCode := 16, code := "Shift", location := 1 })
      (by unfold layoutSane; decide)).1 rfl).1⟩

/-- C6: whenever `comboPress` succeeds, the dispatched command sequence
is exactly the `down` of every combo segment in left-to-right order
followed by the `up` of every segment in reverse order. -/
theorem c6_comboPress_order :
    ∀ (L : KeyboardLayout) (st : KbState) (keys : String) (st2 : KbState) (cs : List KbdCmd),
    comboPressK L st keys = .ok (st2, cs) →
    cs.map KbdCmd.tag =
      (split keys).map CmdTag.downTag ++ ((split keys).reverse).map CmdTag.upTag := by
  intro L st keys st2 cs h
  simp only [comboPressK] at h
  split at h
  · exact absurd h (by simp)
  · rename_i st1 downs hd
    split at h
    · exact absurd h (by simp)
    · rename_i st3 ups hu
      simp only [Except.ok.injEq, Prod.mk.injEq] at h
      rw [← h.2, List.map_append,
        downAll_tags L (split keys) st st1 downs hd,
        upAll_tags L (split keys).reverse st1 st3 ups hu]

/-- C6 witness: `comboPress("Shift+KeyA")` on the "us" fragment issues
down(Shift), down(KeyA), up(KeyA), up(Shift). -/
theorem c6_comboPress_order_witness :
    comboPressK usLayoutFragment newKeyboardState "Shift+KeyA" =
      .ok ({ modifiers := 0, pressedKeys := [] },
        [KbdCmd.keyDownCmd "Shift"
          { type := KeyEventType.rawKeyDown, modifiers := 8, key := "Shift",
            windowsVirtualKeyCode := 16, code := "Shift", location := 1 },
         KbdCmd.keyDownCmd "KeyA"
          { type := KeyEventType.keyDown, modifiers := 8, key := "A",
            windowsVirtualKeyCode := 65, code := "KeyA", location := 0,
            text := "A", unmodifiedText := "A" },
         KbdCmd.keyUpCmd "KeyA"
          { type := KeyEventType.keyUp, modifiers := 8, key := "A",
            windowsVirtualKeyCode := 65, code := "KeyA", location := 0 },
         KbdCmd.keyUpCmd "Shift"
          { type := KeyEventType.keyUp, modifiers := 0, key := "Shift",
            windowsVirtualKeyCode := 16, code := "Shift", location := 1 }])
    ∧ ([KbdCmd.keyDownCmd "Shift"
          { type := KeyEventType.rawKeyDown, modifiers := 8, key := "Shift",
            windowsVirtualKeyCode := 16, code := "Shift", location := 1 },
        KbdCmd.keyDownCmd "KeyA"
          { type := KeyEventType.keyDown, modifiers := 8, key := "A",
            windowsVirtualKeyCode := 65, code := "KeyA", location := 0,
            text := "A", unmodifiedText := "A" },
        KbdCmd.keyUpCmd "KeyA"
          { type := KeyEventType.keyUp, modifiers := 8, key := "A",
            windowsVirtualKeyCode := 65, code := "KeyA", location := 0 },
        KbdCmd.keyUpCmd "Shift"
          { type := KeyEventType.keyUp, modifiers := 0, key := "Shift",
            windowsVirtualKeyCode := 16, code := "Shift", location := 1 }]).map KbdCmd.tag =
        (split "Shift+KeyA").map CmdTag.downTag
          ++ ((split "Shift+KeyA").reverse).map CmdTag.upTag :=
  ⟨rfl,
   c6_comboPress_order usLayoutFragment newKeyboardState "Shift+KeyA"
     { modifiers := 0, pressedKeys := [] }
     [KbdCmd.keyDownCmd "Shift"
        { type := KeyEventType.rawKeyDown, modifiers := 8, key := "Shift",
          windowsVirtualKeyCode := 16, code := "Shift", location := 1 },
      KbdCmd.keyDownCmd "KeyA"
        { type := KeyEventType.keyDown, modifiers := 8, key := "A",
          windowsVirtualKeyCode := 65, code := "KeyA", location := 0,
          text := "A", unmodifiedText := "A" },
      KbdCmd.keyUpCmd "KeyA"
        { type := KeyEventType.keyUp, modifiers := 8, key := "A",
          windowsVirtualKeyCode := 65, code := "KeyA", location := 0 },
      KbdCmd.keyUpCmd "Shift"
        { type := KeyEventType.keyUp, modifiers := 0, key := "Shift",
          windowsVirtualKeyCode := 16, code := "Shift", location := 1 }] rfl⟩

/-- C7: `convertBaseJSHandleTypes` fails with `ErrWrongExecutionContext`
when the handle's execution context differs from the calling one; then,
with `ErrJSHandleDisposed` when the handle is disposed; otherwise it
produces exactly one variant — the carried unserializable value when
non-empty, else a plain value when there is no remote object id, else a
remote-object-id reference — with the checks applied in that order. -/
theorem c7_convertHandle_checks :
    ∀ (execCtxID : Nat) (h : BaseJSHandle),
    (h.execCtxID ≠ execCtxID →
      convertBaseJSHandleTypes execCtxID h = .error .ErrWrongExecutionContext)
    ∧ (h.execCtxID = execCtxID → h.disposed = true →
      convertBaseJSHandleTypes execCtxID h = .error .ErrJSHandleDisposed)
    ∧ (h.execCtxID = execCtxID → h.disposed = false →
        h.remoteObject.UnserializableValue ≠ "" →
      convertBaseJSHandleTypes execCtxID h =
        .ok (.unserializableValue h.remoteObject.UnserializableValue))
    ∧ (h.execCtxID = execCtxID → h.disposed = false →
        h.remoteObject.UnserializableValue = "" → h.remoteObject.ObjectID = "" →
      convertBaseJSHandleTypes execCtxID h = .ok (.value h.remoteObject.Value))
    ∧ (h.execCtxID = execCtxID → h.disposed = false →
        h.remoteObject.UnserializableValue = "" → h.remoteObject.ObjectID ≠ "" →
      convertBaseJSHandleTypes execCtxID h = .ok (.objectID h.remoteObject.ObjectID)) := by
  intro ctx h
  refine ⟨fun h1 => ?_, fun h1 h2 => ?_, fun h1 h2 h3 => ?_,
    fun h1 h2 h3 h4 => ?_, fun h1 h2 h3 h4 => ?_⟩ <;>
    simp [convertBaseJSHandleTypes, *]

/-- C7 witness: a handle from execution context 2 converted in context 1
fails with the wrong-execution-context error; a live same-context handle
carrying only an object id becomes a remote-object reference. -/
theorem c7_convertHandle_checks_witness :
    ((⟨2, false, {}⟩ : BaseJSHandle).execCtxID ≠ 1
      ∧ convertBaseJSHandleTypes 1 ⟨2, false, {}⟩ = .error .ErrWrongExecutionContext)
    ∧ convertBaseJSHandleTypes 1 ⟨1, false, { ObjectID := "object-7" }⟩ =
        .ok (.objectID "object-7") :=
  ⟨⟨by decide, (c7_convertHandle_checks 1 ⟨2, false, {}⟩).1 (by decide)⟩,
   (c7_convertHandle_checks 1 ⟨1, false, { ObjectID := "object-7" }⟩).2.2.2.2
     rfl rfl rfl (by decide)⟩

/-- C8 (spec-modelled): for a frame whose `pendingDocument` is non-nil,
processing an aborted navigation for that document id emits a
`NavigationEvent` whose `newDocument` is the pending document captured
before clearing (hence non-nil, with the pending id), and immediately
afterwards the frame's own `pendingDocument` is nil. -/
theorem c8_aborted_navigation_nonnil_pending :
    ∀ (f : FrameModel) (errMsg : String) (d : DocumentInfo),
    f.pendingDocument = some d →
    (frameAbortedNavigation f errMsg d.documentID).2 =
        some { newDocument := some d, err := errMsg }
    ∧ ((frameAbortedNavigation f errMsg d.documentID).1).pendingDocument = none := by
  intro f e d h
  simp [frameAbortedNavigation, h]

/-- C8 witness: the test scenario — pending document id `"42"`, abort
with `"any error"`. -/
theorem c8_aborted_navigation_nonnil_pending_witness :
    (⟨some ⟨"42"⟩⟩ : FrameModel).pendingDocument = some ⟨"42"⟩
    ∧ (frameAbortedNavigation ⟨some ⟨"42"⟩⟩ "any error" "42").2 =
        some { newDocument := some ⟨"42"⟩, err := "any error" }
    ∧ ((frameAbortedNavigation ⟨some ⟨"42"⟩⟩ "any error" "42").1).pendingDocument = none :=
  ⟨rfl,
   (c8_aborted_navigation_nonnil_pending ⟨some ⟨"42"⟩⟩ "any error" ⟨"42"⟩ rfl).1,
   (c8_aborted_navigation_nonnil_pending ⟨some ⟨"42"⟩⟩ "any error" ⟨"42"⟩ rfl).2⟩

/-- C9: any float that is IEEE-equal to zero — positive zero included —
takes the negative-zero branch of `convertArgument` and is marshaled as
the unserializable token `"-0"`; in particular `+0.0` does not become a
`PlainValue` of the JSON number 0, and no zero float is ever marshaled
as a `PlainValue`. -/
theorem c9_zero_floats_never_plain :
    (∀ f : GoFloat, ieeeEq f (GoFloat.zero false) = true →
      convertFloatArgument f = CallArgument.unserializableValue "-0")
    ∧ convertFloatArgument (GoFloat.zero false) = CallArgument.unserializableValue "-0"
    ∧ convertFloatArgument (GoFloat.zero false) ≠ CallArgument.value (PlainVal.jsonNum 0) := by
  refine ⟨?_, by decide, by decide⟩
  intro f h
  cases f with
  | nan => simp [ieeeEq] at h
  | inf a => simp [ieeeEq] at h
  | zero a => simp [convertFloatArgument, ieeeEq]
  | finite q =>
    simp [ieeeEq] at h
    simp [convertFloatArgument, ieeeEq, h]

/-- C9 witness: the finite float of value 0 is IEEE-equal to `+0.0` and
is marshaled as `"-0"`. -/
theorem c9_zero_floats_never_plain_witness :
    ieeeEq (GoFloat.finite 0) (GoFloat.zero false) = true
    ∧ convertFloatArgument (GoFloat.finite 0) = CallArgument.unserializableValue "-0" :=
  ⟨by decide, c9_zero_floats_never_plain.1 (GoFloat.finite 0) (by decide)⟩

/-- C10: in `callApiWithTimeout`, when the api context's `Done` fires
because the surrounding context was cancelled (`context.Canceled`), the
call returns a nil result with `ErrTimedOut`; when it fires because the
wrapper's own deadline expired (`context.DeadlineExceeded`), the call
returns a nil result with a nil error — the two exits yield the
opposite errors of each other. -/
theorem c10_callApiWithTimeout_swapped_errors :
    callApiWithTimeoutModel Int (.ctxDone .canceled) = (none, some GoErr.ErrTimedOut)
    ∧ callApiWithTimeoutModel Int (.ctxDone .deadlineExceeded) = (none, none) :=
  ⟨rfl, rfl⟩
